import Mathlib

/-!
# Verification & Anomaly Engine — shallow embedding

A shallow embedding of the certificate verification and anomaly detection
engine of the Degree-Defender backend
(`src/services/verificationService.js` and
`src/services/anomalyDetectionService.js`), together with theorems settling
the specification claims about it.

Modelling conventions:
* JS numbers are modelled as `ℚ` (the engine only performs exact decimal
  arithmetic on them); `Math.round` is `jsRound` below.
* Optional / possibly-`undefined` fields are `Option` values; JS truthiness
  of a field (`undefined`, `null`, `0`, `""` are falsy) is made explicit by
  the `truthy*` helpers.
* Database / ledger collaborator calls are modelled by passing the call's
  outcome as an `Except Unit _` argument: `Except.error` is the thrown-error
  path that the service's `try/catch` converts into a degraded result.
* Human-readable `description` strings interpolating numeric values, and the
  opaque `details` payloads, are not modelled; claims only concern the
  `type` / `severity` / `confidence` / `riskScore` / `passed` data.
-/

/-- JavaScript `Math.round`: round half towards positive infinity. -/
def jsRound (q : ℚ) : ℤ := ⌊q + 1/2⌋

/-- JS truthiness of a possibly-absent string field: `undefined`, `null` and
`""` are falsy. -/
def truthyS : Option String → Bool
  | none => false
  | some s => !(s = "")

/-- JS truthiness of a possibly-absent numeric field: absent and `0` are falsy. -/
def truthyQ : Option ℚ → Bool
  | none => false
  | some q => !(q = 0)

/-- JS truthiness of a possibly-absent integer field. -/
def truthyZ : Option ℤ → Bool
  | none => false
  | some z => !(z = 0)

/-- JS comparison `x > t` where `x` may be `undefined` (`undefined > t` is false). -/
def optGtQ (o : Option ℚ) (t : ℚ) : Bool :=
  match o with
  | none => false
  | some q => t < q

/-- JS comparison `x > t` on a possibly-absent integer field. -/
def optGtZ (o : Option ℤ) (t : ℤ) : Bool :=
  match o with
  | none => false
  | some z => t < z

/-- JS comparison `x < t` where `x` may be `undefined` (`undefined < t` is false). -/
def optLtQ (o : Option ℚ) (t : ℚ) : Bool :=
  match o with
  | none => false
  | some q => q < t

/-- Levenshtein edit distance between two character lists.  This is the
recurrence computed by the dynamic-programming matrix of
`calculateStringSimilarity` (verificationService.js:420-434): cell
`matrix[j][i]` holds the distance between the first `i` characters of `str1`
and the first `j` characters of `str2`, and satisfies exactly this
deletion / insertion / substitution recurrence. -/
def editDistance : List Char → List Char → ℕ
  | [], ys => ys.length
  | x :: xs, [] => (x :: xs).length
  | x :: xs, y :: ys =>
      min (editDistance xs (y :: ys) + 1)
        (min (editDistance (x :: xs) ys + 1)
          (editDistance xs ys + (if x = y then 0 else 1)))
termination_by xs ys => xs.length + ys.length
decreasing_by all_goals (simp only [List.length_cons]; omega)

/-- `calculateStringSimilarity` (verificationService.js:419-438):
normalized Levenshtein similarity, `1` when both strings are empty. -/
def calculateStringSimilarity (str1 str2 : List Char) : ℚ :=
  let maxLength : ℕ := max str1.length str2.length
  if maxLength = 0 then 1
  else ((maxLength : ℚ) - editDistance str1 str2) / maxLength

lemma editDistance_nil_left (ys : List Char) : editDistance [] ys = ys.length := by
  cases ys <;> simp [editDistance]

lemma editDistance_nil_right (xs : List Char) : editDistance xs [] = xs.length := by
  cases xs <;> simp [editDistance]

lemma editDistance_self (xs : List Char) : editDistance xs xs = 0 := by
  induction xs with
  | nil => simp [editDistance]
  | cons x xs ih =>
      rw [editDistance]
      simp [ih]

lemma editDistance_comm_aux :
    ∀ (n : ℕ) (xs ys : List Char), xs.length + ys.length = n →
      editDistance xs ys = editDistance ys xs := by
  intro n
  induction n using Nat.strong_induction_on with
  | _ n ih =>
    intro xs ys hn
    match xs, ys with
    | [], ys => rw [editDistance_nil_left, editDistance_nil_right]
    | x :: xs, [] => rw [editDistance_nil_left, editDistance_nil_right]
    | x :: xs, y :: ys =>
        rw [editDistance, editDistance]
        have h1 : editDistance xs (y :: ys) = editDistance (y :: ys) xs :=
          ih (xs.length + (y :: ys).length)
            (by simp only [List.length_cons] at hn ⊢; omega) xs (y :: ys) rfl
        have h2 : editDistance (x :: xs) ys = editDistance ys (x :: xs) :=
          ih ((x :: xs).length + ys.length)
            (by simp only [List.length_cons] at hn ⊢; omega) (x :: xs) ys rfl
        have h3 : editDistance xs ys = editDistance ys xs :=
          ih (xs.length + ys.length)
            (by simp only [List.length_cons] at hn ⊢; omega) xs ys rfl
        have hc : (if x = y then (0 : ℕ) else 1) = (if y = x then 0 else 1) := by
          simp [eq_comm]
        rw [h1, h2, h3, hc, min_left_comm]

lemma editDistance_comm (xs ys : List Char) : editDistance xs ys = editDistance ys xs :=
  editDistance_comm_aux (xs.length + ys.length) xs ys rfl

lemma editDistance_le_max_aux :
    ∀ (n : ℕ) (xs ys : List Char), xs.length + ys.length = n →
      editDistance xs ys ≤ max xs.length ys.length := by
  intro n
  induction n using Nat.strong_induction_on with
  | _ n ih =>
    intro xs ys hn
    match xs, ys with
    | [], ys => rw [editDistance_nil_left]; exact le_max_right _ _
    | x :: xs, [] => rw [editDistance_nil_right]; exact le_max_left _ _
    | x :: xs, y :: ys =>
        rw [editDistance]
        have h3 : editDistance xs ys ≤ max xs.length ys.length :=
          ih (xs.length + ys.length)
            (by simp only [List.length_cons] at hn ⊢; omega) xs ys rfl
        have hcost : (if x = y then (0 : ℕ) else 1) ≤ 1 := by split <;> omega
        have hbound : editDistance xs ys + (if x = y then (0 : ℕ) else 1)
            ≤ max (x :: xs).length (y :: ys).length := by
          simp only [List.length_cons]
          omega
        calc min (editDistance xs (y :: ys) + 1)
              (min (editDistance (x :: xs) ys + 1)
                (editDistance xs ys + (if x = y then 0 else 1)))
            ≤ editDistance xs ys + (if x = y then 0 else 1) :=
              le_trans (min_le_right _ _) (min_le_right _ _)
          _ ≤ max (x :: xs).length (y :: ys).length := hbound

lemma editDistance_le_max (xs ys : List Char) :
    editDistance xs ys ≤ max xs.length ys.length :=
  editDistance_le_max_aux (xs.length + ys.length) xs ys rfl

/-- C5: the normalized Levenshtein similarity is bounded in `[0,1]`, equals `1`
on identical strings (in particular on two empty strings), and is symmetric. -/
theorem calculateStringSimilarity_props (a b : List Char) :
    0 ≤ calculateStringSimilarity a b ∧
    calculateStringSimilarity a b ≤ 1 ∧
    calculateStringSimilarity a a = 1 ∧
    calculateStringSimilarity [] [] = 1 ∧
    calculateStringSimilarity a b = calculateStringSimilarity b a := by
  have hself : ∀ c : List Char, calculateStringSimilarity c c = 1 := by
    intro c
    unfold calculateStringSimilarity
    rcases Nat.eq_zero_or_pos c.length with h | h
    · simp [h]
    · have hmax : max c.length c.length = c.length := max_self _
      have hne : ¬ (max c.length c.length = 0) := by omega
      simp only [hne, if_false, editDistance_self, hmax]
      push_cast
      field_simp
  refine ⟨?_, ?_, hself a, hself [], ?_⟩
  · unfold calculateStringSimilarity
    by_cases h : max a.length b.length = 0
    · simp [h]
    · simp only [h, if_false]
      apply div_nonneg
      · have hle : (editDistance a b : ℚ) ≤ ((max a.length b.length : ℕ) : ℚ) := by
          exact_mod_cast editDistance_le_max a b
        linarith
      · positivity
  · unfold calculateStringSimilarity
    by_cases h : max a.length b.length = 0
    · simp [h]
    · simp only [h, if_false]
      have hpos : (0 : ℚ) < ((max a.length b.length : ℕ) : ℚ) := by
        exact_mod_cast Nat.pos_of_ne_zero h
      rw [div_le_one hpos]
      have hd : (0 : ℚ) ≤ (editDistance a b : ℚ) := by positivity
      linarith
  · unfold calculateStringSimilarity
    rw [editDistance_comm, max_comm a.length b.length]

/-- A certificate record / candidate submission.  Field order:
studentName, certificateNumber, course, passingYear, rollNumber, grade,
cgpa, percentage, dateOfIssue, dateOfCompletion, blockchainHash, isLegacy,
ocrConfidence.  Dates are epoch-millisecond values. -/
structure Cert where
  studentName : Option String := none
  certificateNumber : Option String := none
  course : Option String := none
  passingYear : Option ℤ := none
  rollNumber : Option String := none
  grade : Option String := none
  cgpa : Option ℚ := none
  percentage : Option ℚ := none
  dateOfIssue : Option ℚ := none
  dateOfCompletion : Option ℚ := none
  blockchainHash : Option String := none
  isLegacy : Bool := false
  ocrConfidence : Option ℚ := none
deriving DecidableEq

/-- Result of one sub-check (the `details` payload is not modelled). -/
structure CheckResult where
  passed : Bool
  confidence : ℚ
  message : String
deriving DecidableEq

/-- An institution record, restricted to the fields `validateInstitution` reads. -/
structure Institution where
  isActive : Bool
  isVerified : Bool
deriving DecidableEq

/-- Lower-cased character list of a possibly-absent string field
(`cert[field].toLowerCase()`). -/
def charsLower (o : Option String) : List Char :=
  (o.getD "").toList.map Char.toLower

/-- Exact-match field score: weight is granted fully iff the values coincide. -/
def exactScore {α : Type} [DecidableEq α] (o1 o2 : Option α) : ℚ :=
  if o1 = o2 then 1 else 0

/-- Date-of-issue field score (verificationService.js:397-403): `1` within one
day, `0.8` within seven days, `0` otherwise. -/
def dateScore (o1 o2 : Option ℚ) : ℚ :=
  let daysDiff := |o1.getD 0 - o2.getD 0| / 86400000
  if daysDiff ≤ 1 then 1 else if daysDiff ≤ 7 then 0.8 else 0

/-- The per-field data of the `checks` array in `compareDetails`
(verificationService.js:374-384): weight, whether the field is present
(truthy) in both records, and the field score used when it is. -/
def fieldEvals (c1 c2 : Cert) : List (ℚ × Bool × ℚ) :=
  [ (25, truthyS c1.studentName && truthyS c2.studentName,
      calculateStringSimilarity (charsLower c1.studentName) (charsLower c2.studentName)),
    (20, truthyS c1.certificateNumber && truthyS c2.certificateNumber,
      exactScore c1.certificateNumber c2.certificateNumber),
    (15, truthyS c1.course && truthyS c2.course,
      calculateStringSimilarity (charsLower c1.course) (charsLower c2.course)),
    (10, truthyZ c1.passingYear && truthyZ c2.passingYear,
      exactScore c1.passingYear c2.passingYear),
    (10, truthyS c1.rollNumber && truthyS c2.rollNumber,
      exactScore c1.rollNumber c2.rollNumber),
    (5, truthyS c1.grade && truthyS c2.grade, exactScore c1.grade c2.grade),
    (5, truthyQ c1.cgpa && truthyQ c2.cgpa, exactScore c1.cgpa c2.cgpa),
    (5, truthyQ c1.percentage && truthyQ c2.percentage,
      exactScore c1.percentage c2.percentage),
    (5, truthyQ c1.dateOfIssue && truthyQ c2.dateOfIssue,
      dateScore c1.dateOfIssue c2.dateOfIssue) ]

/-- One iteration of the `compareDetails` loop: `totalChecks += weight`
unconditionally, `score` grows only when the field is present in both records. -/
def compareStep (acc : ℚ × ℚ) (e : ℚ × Bool × ℚ) : ℚ × ℚ :=
  (acc.1 + (if e.2.1 then e.1 * e.2.2 else 0), acc.2 + e.1)

/-- `compareDetails` (verificationService.js:370-414): weighted field-by-field
match score of two certificate records, as a rounded percentage. -/
def compareDetails (c1 c2 : Cert) : ℤ :=
  let r := (fieldEvals c1 c2).foldl compareStep (0, 0)
  jsRound (r.1 / r.2 * 100)

/-- Sum of the granted weighted field scores of a field-evaluation list. -/
def sumContrib : List (ℚ × Bool × ℚ) → ℚ
  | [] => 0
  | e :: es => (if e.2.1 then e.1 * e.2.2 else 0) + sumContrib es

/-- Sum of all weights of a field-evaluation list. -/
def sumWeights : List (ℚ × Bool × ℚ) → ℚ
  | [] => 0
  | e :: es => e.1 + sumWeights es

/-- Sum of the weights of the fields present in both records. -/
def presentWeights (l : List (ℚ × Bool × ℚ)) : ℚ :=
  sumWeights (l.filter fun e => e.2.1)

/-- The match score as the specification's words describe it: the denominator
sums only the weights of fields present in both records.  Stated for
comparison with `compareDetails`, which embeds the source. -/
def compareDetailsSpec (c1 c2 : Cert) : ℤ :=
  jsRound (sumContrib (fieldEvals c1 c2) / presentWeights (fieldEvals c1 c2) * 100)

namespace VerificationService

/-- An anomaly record pushed by the verification service's internal battery
(the interpolated `description` string is not modelled). -/
structure VAnomaly where
  type : String
  severity : String
  confidence : ℚ
deriving DecidableEq

/-- `checkDatabaseMatch` (verificationService.js:103-152).  The repository
lookup outcome is the first argument; `Except.error` is the caught-error path. -/
def checkDatabaseMatch (dbRes : Except Unit (Option Cert)) (certificate : Cert) : CheckResult :=
  match dbRes with
  | Except.error _ => ⟨false, 0, "Database check failed"⟩
  | Except.ok none => ⟨false, 0, "Certificate not found in database"⟩
  | Except.ok (some dbCertificate) =>
      let matchScore := compareDetails certificate dbCertificate
      ⟨decide (80 ≤ matchScore), (matchScore : ℚ),
        if 80 ≤ matchScore then "Certificate found and verified"
        else "Certificate details mismatch"⟩

/-- `checkBlockchainValidation` (verificationService.js:157-207).  The ledger
validation outcome is the first argument (used only when a stored digest is
present); `Except.error` is the caught-error path.  The locally generated
hash for legacy certificates only feeds the unmodelled `details` payload. -/
def checkBlockchainValidation (validateRes : Except Unit Bool) (certificate : Cert) : CheckResult :=
  if truthyS certificate.blockchainHash = false then
    if certificate.isLegacy then
      ⟨true, 60, "Legacy certificate - blockchain hash generated for verification"⟩
    else
      ⟨false, 0, "Missing blockchain hash for non-legacy certificate"⟩
  else
    match validateRes with
    | Except.error _ => ⟨false, 0, "Blockchain validation error - unable to verify authenticity"⟩
    | Except.ok true => ⟨true, 100, "Blockchain validation successful"⟩
    | Except.ok false => ⟨false, 0, "Blockchain validation failed - certificate may be tampered"⟩

/-- `validateInstitution` (verificationService.js:279-320). -/
def validateInstitution (instRes : Except Unit (Option Institution)) : CheckResult :=
  match instRes with
  | Except.error _ => ⟨false, 0, "Institution validation failed"⟩
  | Except.ok none => ⟨false, 0, "Institution not found"⟩
  | Except.ok (some institution) =>
      if !institution.isActive || !institution.isVerified then
        ⟨false, 20, "Institution is not active or verified"⟩
      else
        ⟨true, 100, "Institution is valid and verified"⟩

/-- `checkForDuplicates` (verificationService.js:325-365).  The repository
outcome carries the number of duplicate records found. -/
def checkForDuplicates (dupRes : Except Unit ℕ) : CheckResult :=
  match dupRes with
  | Except.error _ => ⟨true, 50, "Duplicate check failed"⟩
  | Except.ok n =>
      ⟨decide (n = 0), if n = 0 then 100 else 0,
        if n = 0 then "No duplicates found" else "potential duplicates found"⟩

/-- `detectGradeTampering` (verificationService.js:443-479). -/
def detectGradeTampering (certificate : Cert) : Option VAnomaly :=
  if truthyQ certificate.cgpa && optGtQ certificate.cgpa 10 then
    some ⟨"INVALID_CGPA", "HIGH", 95⟩
  else if truthyQ certificate.percentage && optGtQ certificate.percentage 100 then
    some ⟨"INVALID_PERCENTAGE", "HIGH", 95⟩
  else if truthyQ certificate.cgpa && truthyQ certificate.percentage then
    let expectedPercentage := certificate.cgpa.getD 0 * 9.5
    if 20 < |certificate.percentage.getD 0 - expectedPercentage| then
      some ⟨"GRADE_PERCENTAGE_MISMATCH", "MEDIUM", 80⟩
    else none
  else none

/-- Scan for an ascending or descending run of three consecutive digit values
(the loop of `isSequential`, verificationService.js:527-535). -/
def hasSeqTriple : List ℕ → Bool
  | a :: b :: c :: rest =>
      (b = a + 1 && c = b + 1) || (b + 1 = a && c + 1 = b) || hasSeqTriple (b :: c :: rest)
  | _ => false

/-- `isSequential` (verificationService.js:523-537): strip non-digits, then
look for three consecutive ascending or descending digits. -/
def isSequential (str : List Char) : Bool :=
  let numbers := (str.filter Char.isDigit).map (fun ch => ch.toNat - 48)
  if numbers.length < 3 then false else hasSeqTriple numbers

/-- The regex `/^(.)\1+$/` of `validateCertificateNumber`: at least two
characters, all equal. -/
def allSameRepeat : List Char → Bool
  | [] => false
  | [_] => false
  | a :: rest => rest.all (fun ch => ch = a)

/-- `validateCertificateNumber` (verificationService.js:484-518). -/
def validateCertificateNumber (certificate : Cert) : Option VAnomaly :=
  if truthyS certificate.certificateNumber = false then
    some ⟨"MISSING_CERTIFICATE_NUMBER", "HIGH", 90⟩
  else
    let certNum := (certificate.certificateNumber.getD "").toList
    if allSameRepeat certNum then
      some ⟨"SUSPICIOUS_CERTIFICATE_NUMBER", "HIGH", 85⟩
    else if isSequential certNum then
      some ⟨"SEQUENTIAL_CERTIFICATE_NUMBER", "MEDIUM", 70⟩
    else none

/-- Membership in the character class of the suspicious-name regex
(verificationService.js:559): digits and the listed symbols.  Brace (123/125),
backslash (92), double quote (34) and single quote (39) are written by code
point. -/
def suspiciousNameChar (ch : Char) : Bool :=
  ch.isDigit || ch ∈ ['@', '#', '$', '%', '^', '&', '*', '(', ')', '_', '+', '=',
    '[', ']', Char.ofNat 123, Char.ofNat 125, '|', Char.ofNat 92, ':',
    Char.ofNat 34, ';', Char.ofNat 39, '<', '>', '?', ',', '.', '/']

/-- `detectSuspiciousPatterns` (verificationService.js:542-569). -/
def detectSuspiciousPatterns (certificate : Cert) : List VAnomaly :=
  (if !truthyS certificate.studentName || !truthyS certificate.course
      || !truthyZ certificate.passingYear then
     [⟨"MISSING_CRITICAL_FIELDS", "HIGH", 90⟩]
   else [])
  ++ (if truthyS certificate.studentName
        && (certificate.studentName.getD "").toList.any suspiciousNameChar then
        [⟨"SUSPICIOUS_CHARACTERS_IN_NAME", "MEDIUM", 75⟩]
      else [])

/-- `validateDates` (verificationService.js:574-600).  `currentDate` is the
clock reading; an absent issue date gives `NaN`, whose comparisons are all
false. -/
def validateDates (certificate : Cert) (currentDate : ℚ) : Option VAnomaly :=
  match certificate.dateOfIssue with
  | none => none
  | some issueDate =>
      if currentDate < issueDate then
        some ⟨"FUTURE_ISSUE_DATE", "HIGH", 95⟩
      else if truthyQ certificate.dateOfCompletion
          && issueDate < certificate.dateOfCompletion.getD 0 then
        some ⟨"COMPLETION_AFTER_ISSUE", "MEDIUM", 80⟩
      else none

/-- Body of `detectAnomalies` (verificationService.js:213-264): the collected
anomaly list and the total confidence deduction. -/
def detectAnomaliesList (certificate : Cert) (currentDate : ℚ) : List VAnomaly × ℚ :=
  let a1 : List VAnomaly :=
    if optLtQ certificate.ocrConfidence 60 then [⟨"LOW_OCR_CONFIDENCE", "MEDIUM", 70⟩] else []
  let d1 : ℚ := if optLtQ certificate.ocrConfidence 60 then 20 else 0
  let g := detectGradeTampering certificate
  let a2 := a1 ++ g.toList
  let d2 := d1 + (if g.isSome then 30 else 0)
  let n := validateCertificateNumber certificate
  let a3 := a2 ++ n.toList
  let d3 := d2 + (if n.isSome then 25 else 0)
  let p := detectSuspiciousPatterns certificate
  let a4 := a3 ++ p
  let d4 := d3 + p.length * 15
  let dt := validateDates certificate currentDate
  let a5 := a4 ++ dt.toList
  let d5 := d4 + (if dt.isSome then 20 else 0)
  (a5, d5)

/-- `detectAnomalies` (verificationService.js:212-274).  Its only collaborator
call is the prisma create inside `storeAnomalies` (lines 605-625), whose own
catch swallows the error and only logs it, so a failing storage collaborator
never reaches the outer catch (lines 265-273): the check returns its normally
computed result.  The storage outcome is still an argument, on which the
result does not depend. -/
def detectAnomalies (storeRes : Except Unit Unit) (certificate : Cert)
    (currentDate : ℚ) : CheckResult :=
  let r := detectAnomaliesList certificate currentDate
  ⟨decide (r.1.length = 0), max 0 (100 - r.2),
    if r.1.length = 0 then "No anomalies detected" else "anomalies detected"⟩

end VerificationService

/-- The five check results assembled by `performVerificationChecks`
(verificationService.js:79-85), in object insertion order. -/
structure Checks where
  databaseMatch : CheckResult
  blockchainValidation : CheckResult
  anomalyDetection : CheckResult
  institutionValidation : CheckResult
  duplicateCheck : CheckResult
deriving DecidableEq

namespace VerificationService

/-- `Object.entries(checks)`: the name/result pairs in insertion order. -/
def checkEntries (c : Checks) : List (String × CheckResult) :=
  [("databaseMatch", c.databaseMatch),
   ("blockchainValidation", c.blockchainValidation),
   ("anomalyDetection", c.anomalyDetection),
   ("institutionValidation", c.institutionValidation),
   ("duplicateCheck", c.duplicateCheck)]

/-- The `weights` object of `calculateConfidenceScore`
(verificationService.js:631-637); an unknown key reads as `undefined`,
which behaves as the falsy `0` in the guard. -/
def weightOf (checkName : String) : ℚ :=
  if checkName = "databaseMatch" then 0.4
  else if checkName = "blockchainValidation" then 0.2
  else if checkName = "anomalyDetection" then 0.2
  else if checkName = "institutionValidation" then 0.1
  else if checkName = "duplicateCheck" then 0.1
  else 0

/-- One iteration of the `calculateConfidenceScore` loop: skip entries whose
weight is falsy, otherwise accumulate weighted confidence and weight. -/
def confidenceStep (acc : ℚ × ℚ) (e : String × CheckResult) : ℚ × ℚ :=
  if weightOf e.1 = 0 then acc
  else (acc.1 + e.2.confidence * weightOf e.1, acc.2 + weightOf e.1)

/-- `calculateConfidenceScore` (verificationService.js:630-650). -/
def calculateConfidenceScore (c : Checks) : ℤ :=
  let r := (checkEntries c).foldl confidenceStep (0, 0)
  if 0 < r.2 then jsRound (r.1 / r.2) else 0

/-- `this.anomalyThresholds.mediumConfidence` (verificationService.js:11),
the validity threshold used at line 88. -/
def mediumConfidence : ℤ := 75

/-- `getFlaggedReasons` (verificationService.js:655-665). -/
def getFlaggedReasons (c : Checks) : List String :=
  ((checkEntries c).filter (fun e => !e.2.passed)).map
    (fun e => e.1 ++ ": " ++ e.2.message)

/-- The orchestrator's result (the `notes` string is not modelled). -/
structure VerificationOutcome where
  isValid : Bool
  confidenceScore : ℤ
  checks : Checks
  flaggedReasons : List String
deriving DecidableEq

/-- The aggregation step of `performVerificationChecks`
(verificationService.js:87-97): overall score, validity decision and
flagged reasons from the five check results. -/
def aggregateChecks (checks : Checks) : VerificationOutcome :=
  let confidenceScore := calculateConfidenceScore checks
  ⟨decide (mediumConfidence ≤ confidenceScore), confidenceScore, checks,
    getFlaggedReasons checks⟩

/-- `performVerificationChecks` (verificationService.js:78-98): run the five
checks (each given its collaborator outcome) and aggregate. -/
def performVerificationChecks (dbRes : Except Unit (Option Cert))
    (validateRes : Except Unit Bool) (storeRes : Except Unit Unit)
    (instRes : Except Unit (Option Institution)) (dupRes : Except Unit ℕ)
    (certificate : Cert) (currentDate : ℚ) : VerificationOutcome :=
  aggregateChecks
    ⟨checkDatabaseMatch dbRes certificate,
     checkBlockchainValidation validateRes certificate,
     detectAnomalies storeRes certificate currentDate,
     validateInstitution instRes,
     checkForDuplicates dupRes⟩

end VerificationService

namespace AnomalyDetectionService

/-- An anomaly finding of the anomaly-detection service (the interpolated
`description` string is not modelled). -/
structure Finding where
  type : String
  severity : String
  confidence : ℚ
  riskScore : ℚ
deriving DecidableEq

/-- The `IMPOSSIBLE_GRADE` finding (anomalyDetectionService.js:59-65). -/
def impossibleGradeFinding : Finding := ⟨"IMPOSSIBLE_GRADE", "CRITICAL", 95, 95⟩

/-- The `GRADE_INCONSISTENCY` finding (anomalyDetectionService.js:74-80). -/
def gradeInconsistencyFinding : Finding := ⟨"GRADE_INCONSISTENCY", "HIGH", 80, 75⟩

/-- The `SUSPICIOUS_GRADE_PATTERN` finding (anomalyDetectionService.js:87-93). -/
def suspiciousGradePatternFinding : Finding :=
  ⟨"SUSPICIOUS_GRADE_PATTERN", "MEDIUM", 70, 60⟩

/-- `detectGradeTampering` (anomalyDetectionService.js:54-97).
`suspGradeTest` is the outcome of the `suspiciousGrades` regex test on the
formatted grade string (string formatting of numbers is not modelled; both
claims about this function hold for either outcome). -/
def detectGradeTampering (certificate : Cert) (suspGradeTest : Bool) : List Finding :=
  (if optGtQ certificate.cgpa 10 || optGtQ certificate.percentage 100 then
     [impossibleGradeFinding]
   else [])
  ++ (if truthyQ certificate.cgpa && truthyQ certificate.percentage then
        let expectedPercentage := certificate.cgpa.getD 0 * 9.5
        if 25 < |certificate.percentage.getD 0 - expectedPercentage| then
          [gradeInconsistencyFinding]
        else []
      else [])
  ++ (if suspGradeTest then [suspiciousGradePatternFinding] else [])

/-- Substring occurrence: does `pat` occur contiguously inside `s`?  Models a
regex alternative such as `123456` matching anywhere in the subject. -/
def startsWithL : List Char → List Char → Bool
  | [], _ => true
  | _ :: _, [] => false
  | p :: ps, s :: ss => p = s && startsWithL ps ss

/-- Occurrence of `pat` as a contiguous run anywhere in `s`. -/
def hasSubstr (pat : List Char) : List Char → Bool
  | [] => pat.isEmpty
  | s :: ss => startsWithL pat (s :: ss) || hasSubstr pat ss

/-- The `sequentialNumbers` regex `/123456|654321|111111|000000/`
(anomalyDetectionService.js:9). -/
def seqPatternTest (s : List Char) : Bool :=
  hasSubstr "123456".toList s || hasSubstr "654321".toList s
    || hasSubstr "111111".toList s || hasSubstr "000000".toList s

/-- The `commonFakeNames` regex `/test|sample|dummy|fake|john doe|jane doe/i`
(anomalyDetectionService.js:10), applied to the lower-cased name. -/
def fakeNameTest (s : List Char) : Bool :=
  let l := s.map Char.toLower
  hasSubstr "test".toList l || hasSubstr "sample".toList l
    || hasSubstr "dummy".toList l || hasSubstr "fake".toList l
    || hasSubstr "john doe".toList l || hasSubstr "jane doe".toList l

/-- The `invalidChars` regex `/[^\w\s\.\-\/\(\)]/`
(anomalyDetectionService.js:11): some character outside word characters,
whitespace, dot, hyphen, slash and parentheses. -/
def invalidCharsTest (s : List Char) : Bool :=
  s.any (fun ch =>
    !(ch.isAlphanum || ch = '_' || ch.isWhitespace
      || ch ∈ ['.', '-', '/', '(', ')']))

/-- The `SEQUENTIAL_CERTIFICATE_NUMBER` finding (anomalyDetectionService.js:141-147). -/
def seqCertNumFinding : Finding := ⟨"SEQUENTIAL_CERTIFICATE_NUMBER", "HIGH", 85, 70⟩

/-- The `SUSPICIOUS_NAME` finding (anomalyDetectionService.js:153-159). -/
def suspiciousNameFinding : Finding := ⟨"SUSPICIOUS_NAME", "HIGH", 90, 85⟩

/-- The `INVALID_CHARACTERS` finding (anomalyDetectionService.js:164-170). -/
def invalidCharsFinding : Finding := ⟨"INVALID_CHARACTERS", "MEDIUM", 75, 60⟩

/-- `detectSuspiciousPatterns` (anomalyDetectionService.js:135-174). -/
def detectSuspiciousPatterns (certificate : Cert) : List Finding :=
  (if seqPatternTest (certificate.certificateNumber.getD "").toList then
     [seqCertNumFinding]
   else [])
  ++ (if fakeNameTest (certificate.studentName.getD "").toList then
        [suspiciousNameFinding]
      else [])
  ++ (if invalidCharsTest (certificate.studentName.getD "").toList then
        [invalidCharsFinding]
      else [])

/-- The institution+course aggregate returned by the record repository
(anomalyDetectionService.js:182-195): row count and mean CGPA / percentage. -/
structure AggStats where
  count : ℕ
  avgCgpa : Option ℚ
  avgPercentage : Option ℚ
deriving DecidableEq

/-- The `STATISTICAL_OUTLIER_CGPA` finding (anomalyDetectionService.js:205-211). -/
def statOutlierFinding : Finding := ⟨"STATISTICAL_OUTLIER_CGPA", "MEDIUM", 70, 50⟩

/-- The `FUTURE_PASSING_YEAR` finding (anomalyDetectionService.js:219-225). -/
def futurePassingYearFinding : Finding := ⟨"FUTURE_PASSING_YEAR", "CRITICAL", 100, 100⟩

/-- `performStatisticalAnalysis` (anomalyDetectionService.js:176-233).  The
aggregate-query outcome is the first argument; if it throws, the catch logs
and the anomalies collected so far (none) are returned. -/
def performStatisticalAnalysis (aggRes : Except Unit AggStats) (certificate : Cert)
    (currentYear : ℤ) : List Finding :=
  match aggRes with
  | Except.error _ => []
  | Except.ok stats =>
      (if 10 < stats.count then
         if truthyQ certificate.cgpa && truthyQ stats.avgCgpa then
           if 2 < |certificate.cgpa.getD 0 - stats.avgCgpa.getD 0| then
             [statOutlierFinding]
           else []
         else []
       else [])
      ++ (if optGtZ certificate.passingYear currentYear then
            [futurePassingYearFinding]
          else [])

/-- A finding with its assigned priority rank (the `detectionMethod` and
`timestamp` fields added by the same map are constants / wall-clock data and
are not modelled). -/
structure RankedFinding where
  finding : Finding
  priority : ℕ
deriving DecidableEq

/-- Descending risk-score order used by the `prioritizeAnomalies` comparator
`(a, b) => b.riskScore - a.riskScore`. -/
def riskGe (a b : Finding) : Prop := b.riskScore ≤ a.riskScore

instance : DecidableRel riskGe :=
  fun a b => inferInstanceAs (Decidable (b.riskScore ≤ a.riskScore))

instance : IsTotal Finding riskGe := ⟨fun a b => le_total b.riskScore a.riskScore⟩

instance : IsTrans Finding riskGe := ⟨fun _ _ _ hab hbc => le_trans hbc hab⟩

/-- `.map((anomaly, index) => ({...anomaly, priority: index + 1, ...}))`
with a running index starting at `k`. -/
def rankFrom (k : ℕ) : List Finding → List RankedFinding
  | [] => []
  | a :: rest => ⟨a, k + 1⟩ :: rankFrom (k + 1) rest

/-- `prioritizeAnomalies` (anomalyDetectionService.js:306-315): sort by
descending risk score (ECMAScript guarantees a permutation sorted by the
comparator; modelled by insertion sort), then attach 1-based priority ranks. -/
def prioritizeAnomalies (anomalies : List Finding) : List RankedFinding :=
  rankFrom 0 (anomalies.insertionSort riskGe)

end AnomalyDetectionService

section Claims

open VerificationService AnomalyDetectionService

/-- A generic fact about membership in a conditional singleton list. -/
lemma mem_ite_singleton_iff {α : Type} (x y : α) (b : Bool) :
    x ∈ (if b then [y] else ([] : List α)) ↔ (b = true ∧ x = y) := by
  cases b <;> simp

lemma weightOf_databaseMatch : weightOf "databaseMatch" = 0.4 := rfl

lemma weightOf_blockchainValidation : weightOf "blockchainValidation" = 0.2 := rfl

lemma weightOf_anomalyDetection : weightOf "anomalyDetection" = 0.2 := rfl

lemma weightOf_institutionValidation : weightOf "institutionValidation" = 0.1 := rfl

lemma weightOf_duplicateCheck : weightOf "duplicateCheck" = 0.1 := rfl

lemma confidence_foldl (c : Checks) :
    (checkEntries c).foldl confidenceStep (0, 0)
      = (c.databaseMatch.confidence * 0.4 + c.blockchainValidation.confidence * 0.2
          + c.anomalyDetection.confidence * 0.2
          + c.institutionValidation.confidence * 0.1
          + c.duplicateCheck.confidence * 0.1, 1) := by
  simp only [checkEntries, List.foldl_cons, List.foldl_nil, confidenceStep,
    weightOf_databaseMatch, weightOf_blockchainValidation, weightOf_anomalyDetection,
    weightOf_institutionValidation, weightOf_duplicateCheck]
  norm_num

/-- C1: for five check results with confidences in `[0,100]`, the overall
confidence is the rounded weighted mean with weights 0.4 / 0.2 / 0.2 / 0.1 /
0.1 over their sum, and the orchestrator declares the certificate valid iff
that score is at least 75. -/
theorem orchestrator_confidence_and_validity (c : Checks)
    (h1 : 0 ≤ c.databaseMatch.confidence ∧ c.databaseMatch.confidence ≤ 100)
    (h2 : 0 ≤ c.blockchainValidation.confidence ∧ c.blockchainValidation.confidence ≤ 100)
    (h3 : 0 ≤ c.anomalyDetection.confidence ∧ c.anomalyDetection.confidence ≤ 100)
    (h4 : 0 ≤ c.institutionValidation.confidence ∧ c.institutionValidation.confidence ≤ 100)
    (h5 : 0 ≤ c.duplicateCheck.confidence ∧ c.duplicateCheck.confidence ≤ 100) :
    calculateConfidenceScore c =
      jsRound ((0.4 * c.databaseMatch.confidence
        + 0.2 * c.blockchainValidation.confidence
        + 0.2 * c.anomalyDetection.confidence
        + 0.1 * c.institutionValidation.confidence
        + 0.1 * c.duplicateCheck.confidence) / (0.4 + 0.2 + 0.2 + 0.1 + 0.1))
    ∧ ((aggregateChecks c).isValid = true ↔ 75 ≤ calculateConfidenceScore c) := by
  constructor
  · simp only [calculateConfidenceScore, confidence_foldl]
    norm_num
    congr 1
    ring
  · simp [aggregateChecks, mediumConfidence]

/-- Witness for C1 at five concrete all-100 check results. -/
def allHundred : Checks :=
  ⟨⟨true, 100, "m1"⟩, ⟨true, 100, "m2"⟩, ⟨true, 100, "m3"⟩,
   ⟨true, 100, "m4"⟩, ⟨true, 100, "m5"⟩⟩

theorem orchestrator_confidence_and_validity_witness :
    calculateConfidenceScore allHundred =
      jsRound ((0.4 * allHundred.databaseMatch.confidence
        + 0.2 * allHundred.blockchainValidation.confidence
        + 0.2 * allHundred.anomalyDetection.confidence
        + 0.1 * allHundred.institutionValidation.confidence
        + 0.1 * allHundred.duplicateCheck.confidence) / (0.4 + 0.2 + 0.2 + 0.1 + 0.1))
    ∧ ((aggregateChecks allHundred).isValid = true ↔
        75 ≤ calculateConfidenceScore allHundred) :=
  orchestrator_confidence_and_validity allHundred
    (by norm_num [allHundred]) (by norm_num [allHundred]) (by norm_num [allHundred])
    (by norm_num [allHundred]) (by norm_num [allHundred])

lemma compare_foldl (l : List (ℚ × Bool × ℚ)) (s t : ℚ) :
    l.foldl compareStep (s, t) = (s + sumContrib l, t + sumWeights l) := by
  induction l generalizing s t with
  | nil => simp [sumContrib, sumWeights]
  | cons e es ih =>
      simp only [List.foldl_cons, compareStep, ih, sumContrib, sumWeights,
        Prod.mk.injEq]
      exact ⟨by ring, by ring⟩

lemma sumWeights_fieldEvals (c1 c2 : Cert) : sumWeights (fieldEvals c1 c2) = 100 := by
  simp [fieldEvals, sumWeights]
  norm_num

/-- C2 (amended): the denominator of `compareDetails` is the sum of ALL nine
field weights (100), independent of which fields are present; missing fields
only drop out of the numerator. -/
theorem compareDetails_total_weight (c1 c2 : Cert) :
    compareDetails c1 c2 = jsRound (sumContrib (fieldEvals c1 c2) / 100 * 100)
    ∧ sumWeights (fieldEvals c1 c2) = 100 := by
  refine ⟨?_, sumWeights_fieldEvals c1 c2⟩
  unfold compareDetails
  rw [compare_foldl, sumWeights_fieldEvals]
  norm_num

/-- A record whose only (truthy) field is the certificate number. -/
def certNumOnly : Cert :=
  ⟨none, some "AB12", none, none, none, none, none, none, none, none, none,
    false, none⟩

/-- C2 counterexample: comparing `certNumOnly` with itself, the code divides
by the full weight total (score 20) while the specification's
present-fields-only denominator would give 100. -/
theorem compareDetails_denominator_cex :
    compareDetails certNumOnly certNumOnly = 20
    ∧ compareDetailsSpec certNumOnly certNumOnly = 100 := by
  constructor
  · unfold compareDetails
    rw [compare_foldl]
    have h1 : sumContrib (fieldEvals certNumOnly certNumOnly) = 20 := by
      simp [fieldEvals, sumContrib, certNumOnly, truthyS, truthyQ, truthyZ, exactScore]
    have h2 : sumWeights (fieldEvals certNumOnly certNumOnly) = 100 :=
      sumWeights_fieldEvals _ _
    rw [h1, h2]
    norm_num [jsRound]
  · unfold compareDetailsSpec presentWeights
    have h1 : sumContrib (fieldEvals certNumOnly certNumOnly) = 20 := by
      simp [fieldEvals, sumContrib, certNumOnly, truthyS, truthyQ, truthyZ, exactScore]
    have h2 : (fieldEvals certNumOnly certNumOnly).filter (fun e => e.2.1)
        = [(20, true, exactScore certNumOnly.certificateNumber certNumOnly.certificateNumber)] := by
      simp [fieldEvals, certNumOnly, truthyS, truthyQ, truthyZ, List.filter]
    rw [h1, h2]
    simp only [sumWeights, exactScore]
    norm_num [jsRound]

/-- C3: with no stored blockchain digest, the ledger check's `passed` and
`confidence` depend only on the legacy flag: legacy passes with confidence
60, non-legacy fails with confidence 0, whatever the other fields and the
ledger collaborator outcome. -/
theorem ledger_absent_digest_legacy_only (validateRes : Except Unit Bool)
    (certificate : Cert) (h : truthyS certificate.blockchainHash = false) :
    (checkBlockchainValidation validateRes certificate).passed = certificate.isLegacy
    ∧ (checkBlockchainValidation validateRes certificate).confidence
        = (if certificate.isLegacy then 60 else 0) := by
  cases hL : certificate.isLegacy <;>
    simp [checkBlockchainValidation, h, hL]

/-- A legacy certificate carrying no digest (field order as in `Cert`). -/
def legacyNoHashCert : Cert :=
  ⟨some "Asha Rao", some "CERT-77", some "BA", some 2010, none, none, none,
    none, none, none, none, true, none⟩

theorem ledger_absent_digest_legacy_only_witness :
    (checkBlockchainValidation (Except.ok true) legacyNoHashCert).passed
        = legacyNoHashCert.isLegacy
    ∧ (checkBlockchainValidation (Except.ok true) legacyNoHashCert).confidence
        = (if legacyNoHashCert.isLegacy then 60 else 0) :=
  ledger_absent_digest_legacy_only (Except.ok true) legacyNoHashCert rfl

/-- C4 counterexample: a failing duplicate-check collaborator is converted to
`passed = true` with confidence 50, not to `passed = false` with
confidence 0 as the claim states. -/
theorem duplicate_error_conversion_cex :
    (checkForDuplicates (Except.error ())).passed = true
    ∧ (checkForDuplicates (Except.error ())).confidence = 50 :=
  ⟨rfl, rfl⟩

/-- C4 (amended): a collaborator error inside a sub-check is caught instead
of being thrown past the orchestrator (every check function is total, so the
other checks always contribute), but the degraded results differ by check:
database match, blockchain validation (when a digest is present) and
institution validation convert the error to `passed = false` with confidence
0; the duplicate check converts it to `passed = true` with confidence 50;
and the anomaly check's storage error is swallowed inside `storeAnomalies`,
leaving the check's normally computed result unchanged. -/
theorem subcheck_error_conversion (certificate : Cert) (currentDate : ℚ) :
    checkDatabaseMatch (Except.error ()) certificate
        = ⟨false, 0, "Database check failed"⟩
    ∧ (truthyS certificate.blockchainHash = true →
        checkBlockchainValidation (Except.error ()) certificate
          = ⟨false, 0, "Blockchain validation error - unable to verify authenticity"⟩)
    ∧ detectAnomalies (Except.error ()) certificate currentDate
        = detectAnomalies (Except.ok ()) certificate currentDate
    ∧ validateInstitution (Except.error ())
        = ⟨false, 0, "Institution validation failed"⟩
    ∧ checkForDuplicates (Except.error ())
        = ⟨true, 50, "Duplicate check failed"⟩ := by
  refine ⟨rfl, ?_, rfl, rfl, rfl⟩
  intro h
  simp [checkBlockchainValidation, h]

/-- A non-legacy certificate with a stored digest. -/
def hashedCert : Cert :=
  ⟨some "Vikram Singh", some "CERT-42", some "BTech", some 2021, none, none,
    none, none, none, none, some "0xdeadbeef", false, none⟩

theorem subcheck_error_conversion_witness :
    checkDatabaseMatch (Except.error ()) hashedCert
        = ⟨false, 0, "Database check failed"⟩
    ∧ checkBlockchainValidation (Except.error ()) hashedCert
        = ⟨false, 0, "Blockchain validation error - unable to verify authenticity"⟩ := by
  have h := subcheck_error_conversion hashedCert 0
  exact ⟨h.1, h.2.1 rfl⟩

/-- C6: any certificate with CGPA above 10 or percentage above 100 makes the
anomaly detector's grade-tampering check emit the CRITICAL
`IMPOSSIBLE_GRADE` finding with risk score at least 90, independent of every
other field (and of the suspicious-grade regex outcome). -/
theorem impossible_grade_emitted (certificate : Cert) (suspGradeTest : Bool)
    (h : (optGtQ certificate.cgpa 10 || optGtQ certificate.percentage 100) = true) :
    ∃ f ∈ AnomalyDetectionService.detectGradeTampering certificate suspGradeTest,
      f.type = "IMPOSSIBLE_GRADE" ∧ f.severity = "CRITICAL" ∧ 90 ≤ f.riskScore := by
  refine ⟨impossibleGradeFinding, ?_, rfl, rfl, by norm_num [impossibleGradeFinding]⟩
  simp [AnomalyDetectionService.detectGradeTampering, h]

/-- The claim's example certificate: CGPA 10.5. -/
def cgpaTenPointFiveCert : Cert :=
  ⟨some "Meera Nair", some "CERT-9", some "MSc", some 2019, none, none,
    some 10.5, none, none, none, none, false, none⟩

theorem impossible_grade_emitted_witness :
    ∃ f ∈ AnomalyDetectionService.detectGradeTampering cgpaTenPointFiveCert false,
      f.type = "IMPOSSIBLE_GRADE" ∧ f.severity = "CRITICAL" ∧ 90 ≤ f.riskScore :=
  impossible_grade_emitted cgpaTenPointFiveCert false
    (by norm_num [cgpaTenPointFiveCert, optGtQ])

/-- C10: a zero CGPA or a zero percentage disables the grade-consistency
comparison in both grade-tampering checks, because `0` is falsy in the
both-present guard: no `GRADE_INCONSISTENCY` finding and no
`GRADE_PERCENTAGE_MISMATCH` anomaly can be produced. -/
theorem zero_grade_no_inconsistency (certificate : Cert) (suspGradeTest : Bool)
    (h : certificate.cgpa = some 0 ∨ certificate.percentage = some 0) :
    (∀ f ∈ AnomalyDetectionService.detectGradeTampering certificate suspGradeTest,
        f.type ≠ "GRADE_INCONSISTENCY")
    ∧ (∀ a, VerificationService.detectGradeTampering certificate = some a →
        a.type ≠ "GRADE_PERCENTAGE_MISMATCH") := by
  have hg : (truthyQ certificate.cgpa && truthyQ certificate.percentage) = false := by
    rcases h with h | h <;> simp [h, truthyQ]
  constructor
  · intro f hf
    simp only [AnomalyDetectionService.detectGradeTampering, hg, Bool.false_eq_true,
      if_false, List.append_nil, List.nil_append, List.mem_append] at hf
    rcases hf with hf | hf
    · rcases (mem_ite_singleton_iff _ _ _).mp hf with ⟨-, rfl⟩
      decide
    · rcases (mem_ite_singleton_iff _ _ _).mp hf with ⟨-, rfl⟩
      decide
  · intro a ha
    simp only [VerificationService.detectGradeTampering, hg, Bool.false_eq_true,
      if_false] at ha
    split_ifs at ha with hc1 hc2 <;>
      first
        | exact Option.noConfusion ha
        | (have ha2 := Option.some.inj ha; subst ha2; decide)

/-- A certificate with CGPA 0 and a wildly inconsistent percentage. -/
def zeroCgpaCert : Cert :=
  ⟨some "Ishaan Das", some "CERT-11", some "BCom", some 2018, none, none,
    some 0, some 95, none, none, none, false, none⟩

theorem zero_grade_no_inconsistency_witness :
    (∀ f ∈ AnomalyDetectionService.detectGradeTampering zeroCgpaCert false,
        f.type ≠ "GRADE_INCONSISTENCY")
    ∧ (∀ a, VerificationService.detectGradeTampering zeroCgpaCert = some a →
        a.type ≠ "GRADE_PERCENTAGE_MISMATCH") :=
  zero_grade_no_inconsistency zeroCgpaCert false (Or.inl rfl)

/-- C7 (amended): the `STATISTICAL_OUTLIER_CGPA` finding is emitted exactly
when the aggregate query succeeded with strictly more than 10 prior verified
records (so at least 11), the candidate's CGPA and the aggregate mean are
both present and nonzero, and they differ by more than 2.0 points. -/
theorem statistical_outlier_iff (aggRes : Except Unit AggStats)
    (certificate : Cert) (currentYear : ℤ) :
    statOutlierFinding ∈ performStatisticalAnalysis aggRes certificate currentYear
      ↔ ∃ stats, aggRes = Except.ok stats ∧ 10 < stats.count
          ∧ truthyQ certificate.cgpa = true ∧ truthyQ stats.avgCgpa = true
          ∧ 2 < |certificate.cgpa.getD 0 - stats.avgCgpa.getD 0| := by
  cases aggRes with
  | error e => simp [performStatisticalAnalysis]
  | ok stats =>
      simp only [performStatisticalAnalysis, List.mem_append]
      constructor
      · rintro (h1 | h2)
        · split_ifs at h1 with hc1 hc2 hc3
          · exact ⟨stats, rfl, hc1, ((Bool.and_eq_true _ _).mp hc2).1,
              ((Bool.and_eq_true _ _).mp hc2).2, hc3⟩
          · simp at h1
          · simp at h1
          · simp at h1
        · rcases (mem_ite_singleton_iff _ _ _).mp h2 with ⟨-, heq⟩
          exact absurd heq (by decide)
      · rintro ⟨stats2, heq, hcount, hcg, havg, hdev⟩
        injection heq with heq2
        subst heq2
        left
        rw [if_pos hcount, if_pos ((Bool.and_eq_true _ _).mpr ⟨hcg, havg⟩), if_pos hdev]
        exact List.mem_singleton_self _

/-- An aggregate with exactly 10 prior verified records. -/
def tenRecordStats : AggStats := ⟨10, some 1, none⟩

/-- A candidate whose CGPA (9) deviates from the aggregate mean (1) by 8
points. -/
def outlierCgpaCert : Cert :=
  ⟨some "Priya Patel", some "CERT-31", some "MBA", some 2020, none, none,
    some 9, none, none, none, none, false, none⟩

/-- C7 counterexample: with exactly 10 prior verified records and an 8-point
CGPA deviation the detector emits nothing, although the claim ("at least 10
prior verified records") requires a finding. -/
theorem statistical_outlier_ten_records_cex :
    performStatisticalAnalysis (Except.ok tenRecordStats) outlierCgpaCert 2026 = []
    ∧ 10 ≤ tenRecordStats.count
    ∧ 2 < |outlierCgpaCert.cgpa.getD 0 - tenRecordStats.avgCgpa.getD 0| := by
  refine ⟨?_, by decide, ?_⟩
  · simp [performStatisticalAnalysis, tenRecordStats, outlierCgpaCert, optGtZ]
  · have habs : |(9 : ℚ) - 1| = 8 := by
      rw [show (9 : ℚ) - 1 = 8 by norm_num]
      exact abs_of_nonneg (by norm_num)
    simp only [outlierCgpaCert, tenRecordStats, Option.getD_some]
    rw [habs]
    norm_num

/-- C8 (amended): the anomaly-detection service emits
`SEQUENTIAL_CERTIFICATE_NUMBER` exactly when the certificate number contains
one of the four literal substrings 123456 / 654321 / 111111 / 000000, while
the verification service's number validator returns a HIGH
`SUSPICIOUS_CERTIFICATE_NUMBER` anomaly for all-repeated-character numbers
and a MEDIUM `SEQUENTIAL_CERTIFICATE_NUMBER` anomaly for numbers that are
not all-repeated but contain three consecutive ascending or descending
digits. -/
theorem certificate_number_pattern_findings (certificate : Cert) :
    (seqCertNumFinding ∈ AnomalyDetectionService.detectSuspiciousPatterns certificate
       ↔ seqPatternTest (certificate.certificateNumber.getD "").toList = true)
    ∧ (truthyS certificate.certificateNumber = true →
        (allSameRepeat (certificate.certificateNumber.getD "").toList = true →
          validateCertificateNumber certificate
            = some ⟨"SUSPICIOUS_CERTIFICATE_NUMBER", "HIGH", 85⟩)
        ∧ (allSameRepeat (certificate.certificateNumber.getD "").toList = false →
            isSequential (certificate.certificateNumber.getD "").toList = true →
            validateCertificateNumber certificate
              = some ⟨"SEQUENTIAL_CERTIFICATE_NUMBER", "MEDIUM", 70⟩)) := by
  constructor
  · simp only [AnomalyDetectionService.detectSuspiciousPatterns, List.mem_append,
      mem_ite_singleton_iff]
    constructor
    · rintro ((⟨hb, -⟩ | ⟨-, heq⟩) | ⟨-, heq⟩)
      · exact hb
      · exact absurd heq (by decide)
      · exact absurd heq (by decide)
    · intro hb
      exact Or.inl (Or.inl ⟨hb, True.intro⟩)
  · intro ht
    constructor
    · intro hall
      simp only [String.toList] at hall
      simp [validateCertificateNumber, ht, hall]
    · intro hall hseq
      simp only [String.toList] at hall hseq
      simp [validateCertificateNumber, ht, hall, hseq]

/-- A certificate numbered with repeated digits only. -/
def repeatedCert : Cert :=
  ⟨some "Rohit Verma", some "222222", some "BSc", some 2017, none, none,
    none, none, none, none, none, false, none⟩

/-- C8 counterexample: for the all-repeated-digit number 222222, the
anomaly-detection service emits no finding at all, and the verification
service emits `SUSPICIOUS_CERTIFICATE_NUMBER`, not
`SEQUENTIAL_CERTIFICATE_NUMBER` as the claim states. -/
theorem repeated_digits_cex :
    (∀ f ∈ AnomalyDetectionService.detectSuspiciousPatterns repeatedCert,
        f.type ≠ "SEQUENTIAL_CERTIFICATE_NUMBER")
    ∧ validateCertificateNumber repeatedCert
        = some ⟨"SUSPICIOUS_CERTIFICATE_NUMBER", "HIGH", 85⟩ := by
  constructor
  · intro f hf
    rw [show AnomalyDetectionService.detectSuspiciousPatterns repeatedCert = [] from rfl] at hf
    exact absurd hf (List.not_mem_nil f)
  · rfl

/-- A certificate numbered with three ascending digits. -/
def seq789Cert : Cert :=
  ⟨some "Anita Desai", some "789", some "BSc", some 2016, none, none,
    none, none, none, none, none, false, none⟩

theorem certificate_number_pattern_findings_witness :
    validateCertificateNumber seq789Cert
      = some ⟨"SEQUENTIAL_CERTIFICATE_NUMBER", "MEDIUM", 70⟩ :=
  ((certificate_number_pattern_findings seq789Cert).2 rfl).2 rfl (by decide)

lemma mem_rankFrom : ∀ (l : List Finding) (k : ℕ) (r : RankedFinding),
    r ∈ rankFrom k l → r.finding ∈ l := by
  intro l
  induction l with
  | nil => intro k r h; simp [rankFrom] at h
  | cons a rest ih =>
      intro k r h
      simp only [rankFrom, List.mem_cons] at h
      rcases h with rfl | h
      · exact List.mem_cons_self _ _
      · exact List.mem_cons_of_mem _ (ih (k + 1) r h)

lemma rankFrom_pairwise : ∀ (l : List Finding) (k : ℕ), List.Pairwise riskGe l →
    List.Pairwise (fun a b : RankedFinding =>
      b.finding.riskScore ≤ a.finding.riskScore) (rankFrom k l) := by
  intro l
  induction l with
  | nil => intro k h; simp [rankFrom]
  | cons a rest ih =>
      intro k h
      rcases List.pairwise_cons.mp h with ⟨ha, hrest⟩
      simp only [rankFrom]
      refine List.Pairwise.cons ?_ (ih (k + 1) hrest)
      intro b hb
      exact ha b.finding (mem_rankFrom rest (k + 1) b hb)

lemma rankFrom_length : ∀ (l : List Finding) (k : ℕ),
    (rankFrom k l).length = l.length := by
  intro l
  induction l with
  | nil => intro k; rfl
  | cons a rest ih => intro k; simp [rankFrom, ih]

lemma rankFrom_get_priority : ∀ (l : List Finding) (k i : ℕ)
    (h : i < (rankFrom k l).length),
    ((rankFrom k l).get ⟨i, h⟩).priority = k + i + 1 := by
  intro l
  induction l with
  | nil => intro k i h; simp [rankFrom] at h
  | cons a rest ih =>
      intro k i h
      cases i with
      | zero => rfl
      | succ j =>
          have h2 : j < (rankFrom (k + 1) rest).length := by
            simp only [rankFrom, List.length_cons] at h
            omega
          show ((rankFrom (k + 1) rest).get ⟨j, h2⟩).priority = k + (j + 1) + 1
          rw [ih (k + 1) j h2]
          omega

/-- C9: the prioritized anomaly list is sorted by non-increasing risk score,
and the entry at (0-based) position `i` carries priority `i + 1`, so the
highest-risk finding has priority 1. -/
theorem prioritize_sorted_and_ranked (anomalies : List Finding) :
    List.Pairwise (fun a b : RankedFinding =>
      b.finding.riskScore ≤ a.finding.riskScore) (prioritizeAnomalies anomalies)
    ∧ ∀ (i : ℕ) (h : i < (prioritizeAnomalies anomalies).length),
        ((prioritizeAnomalies anomalies).get ⟨i, h⟩).priority = i + 1 := by
  constructor
  · exact rankFrom_pairwise _ 0 (List.sorted_insertionSort riskGe anomalies)
  · intro i h
    have h2 := rankFrom_get_priority (anomalies.insertionSort riskGe) 0 i h
    simpa [prioritizeAnomalies] using h2

/-- Two concrete findings with distinct risk scores. -/
def sampleFindings : List Finding :=
  [⟨"LOW_SEAL_QUALITY", "MEDIUM", 65, 55⟩, ⟨"FORGERY_INDICATOR", "HIGH", 80, 75⟩]

theorem prioritize_sorted_and_ranked_witness :
    ((prioritizeAnomalies sampleFindings).get
        ⟨0, by
          show 0 < (rankFrom 0 (sampleFindings.insertionSort riskGe)).length
          rw [rankFrom_length, List.length_insertionSort]
          simp [sampleFindings]⟩).priority = 1 :=
  (prioritize_sorted_and_ranked sampleFindings).2 0 _

end Claims
